import Mathlib

/-!
Shallow embedding of `src/dashboard.py` (Debt-Analysis-Dashboard).

The dashboard is a pandas/streamlit script.  We embed its pure computational
core: the funding-type categorization rule, the data loader (CSV parse and
date validation), the logo filename resolution, the per-company aggregation
metrics, and the date-by-category pivot table.

Modelling conventions:
* pandas float columns become `Option ℚ` (a missing cell / NaN is `none`);
  `Series.sum` skips NaN, embedded as summing over `List.filterMap id`.
* dates become `ℕ` in `yyyymmdd` encoding (only ordering and equality of
  dates matter to the program); a NaT date in the loader is `none`.
* Python string operations are embedded over `List Char`; `str.replace`
  with a single-character pattern is a character-wise map or deletion, and
  `str.lower` is a character-wise lowercase map.
* Python f-string rounding (`:.2f`, `:.1f`) is embedded as rounding to a
  fixed number of decimal digits (half-up; the claims involve no tie
  values, where Python would round half-to-even).
* exceptions become `Except`; UI rendering is out of scope.
-/

namespace Dashboard

/-- Python substring test over character lists: `needle in hay`. -/
def listContainsSub (needle : List Char) : List Char → Bool
  | [] => needle.isEmpty
  | c :: rest => needle.isPrefixOf (c :: rest) || listContainsSub needle rest

/-- Python `needle in hay` for strings (case-sensitive substring test). -/
def strContains (hay needle : String) : Bool :=
  listContainsSub needle.data hay.data

/-- Embeds `categorize_funding` (dashboard.py lines 17-25): the rule
deriving a funding category from the funding type and the equity-only
flag, evaluated in the precedence order Grant, Debt, Equity, Other. -/
def categorize_funding (funding_type equity_only : String) : String :=
  if funding_type = "Grant" then "Grant"
  else if funding_type = "Debt Financing" ∨ strContains funding_type "Debt" = true then "Debt"
  else if equity_only = "Yes" ∨ strContains funding_type "Series" = true ∨
      strContains funding_type "Venture" = true ∨ strContains funding_type "Equity" = true then
    "Equity"
  else "Other"

/-- One parsed row of the funding-rounds dataset (spec section 3). -/
structure FundingRound where
  organization_name : String
  announced_date : ℕ
  funding_type : String
  equity_only_funding : String
  money_raised_usd : Option ℚ
  lead_investors : String
deriving DecidableEq

/-- The derived `Funding Category` column (dashboard.py lines 39-42). -/
def funding_category (r : FundingRound) : String :=
  categorize_funding r.funding_type r.equity_only_funding

/-- One raw CSV data row as `pd.read_csv` materializes it: any cell may
be an empty cell (`none`, a pandas NaN); read_csv itself does not reject
missing values. -/
structure RawRecord where
  organization_name : Option String
  announced_date : Option String
  funding_type : Option String
  equity_only_funding : Option String
  money_raised_usd : Option ℚ
  lead_investors : Option String

/-- One raw CSV table: which columns the file has, plus its data rows.
Column access in `load_data` raises a KeyError when the column is absent;
`load_data` itself only reads the Announced Date, Funding Type and Equity
Only Funding columns, so only those three flags can make the load fail.
When a column is absent its cells are `none` in the rows. -/
structure RawTable where
  hasOrgCol : Bool
  hasDateCol : Bool
  hasTypeCol : Bool
  hasEquityCol : Bool
  hasMoneyCol : Bool
  hasLeadCol : Bool
  rows : List RawRecord

/-- Splits a character list on a separator character (used for the
`yyyy-mm-dd` date shape). -/
def splitOnChar (sep : Char) : List Char → List (List Char)
  | [] => [[]]
  | c :: rest =>
    if c = sep then [] :: splitOnChar sep rest
    else
      match splitOnChar sep rest with
      | [] => [[c]]
      | g :: gs => (c :: g) :: gs

/-- Reads a non-empty all-digit character group as a number. -/
def parseDigits (l : List Char) : Option ℕ :=
  if l ≠ [] ∧ l.all Char.isDigit then
    some (l.foldl (fun n c => n * 10 + (c.toNat - 48)) 0)
  else none

/-- Embeds the date parsing performed by `pd.to_datetime` (dashboard.py
line 33) on `yyyy-mm-dd` date strings: returns `none` when the string is
unparseable. -/
def parseDate (s : String) : Option ℕ :=
  match splitOnChar '-' s.data with
  | [y, m, d] =>
    match parseDigits y, parseDigits m, parseDigits d with
    | some yn, some mn, some dn =>
      if 1 ≤ mn ∧ mn ≤ 12 ∧ 1 ≤ dn ∧ dn ≤ 31 then some (yn * 10000 + mn * 100 + dn)
      else none
    | _, _, _ => none
  | _ => none

/-- The load-time failures of the loader: pandas raises a KeyError on a
read of a missing column, a parse error from `pd.to_datetime` on an
unparseable date string, and a TypeError when the substring test inside
`categorize_funding` receives a NaN Funding Type cell; the spec names
these failures `MalformedInputError`. -/
inductive MalformedInputError where
  | missingColumn (column : String)
  | badDate (cell : String)
  | badTypeCell
deriving DecidableEq

/-- One row after the `pd.to_datetime` step (dashboard.py line 33): the
date cell is now a calendar date, or NaT (`none`) when the cell was
missing, since `pd.to_datetime` maps NaN to NaT without raising. -/
structure DatedRecord where
  organization_name : Option String
  announced_date : Option ℕ
  funding_type : Option String
  equity_only_funding : Option String
  money_raised_usd : Option ℚ
  lead_investors : Option String
deriving DecidableEq

/-- Embeds `pd.to_datetime` on one cell: a missing cell becomes NaT
(`none`) silently, a present cell must parse or the call raises. -/
def parseDateCell : Option String → Except MalformedInputError (Option ℕ)
  | none => Except.ok none
  | some s =>
    match parseDate s with
    | some d => Except.ok (some d)
    | none => Except.error (MalformedInputError.badDate s)

/-- Embeds the `pd.to_datetime` call over the whole Announced Date column
(dashboard.py line 33): the first unparseable cell makes the whole call
raise, before any later step of `load_data` runs. -/
def toDatetime : List RawRecord → Except MalformedInputError (List DatedRecord)
  | [] => Except.ok []
  | r :: rest =>
    match parseDateCell r.announced_date with
    | Except.error e => Except.error e
    | Except.ok d =>
      match toDatetime rest with
      | Except.error e => Except.error e
      | Except.ok ds =>
        Except.ok
          ({ organization_name := r.organization_name
             announced_date := d
             funding_type := r.funding_type
             equity_only_funding := r.equity_only_funding
             money_raised_usd := r.money_raised_usd
             lead_investors := r.lead_investors } :: ds)

/-- Date comparison used by the sort, with NaT placed last as in the
`sort_values` default na_position. -/
def dateLe : Option ℕ → Option ℕ → Bool
  | some a, some b => a ≤ b
  | some _, none => true
  | none, some _ => false
  | none, none => true

/-- The sort key order on dated records. -/
def dateOrder (a b : DatedRecord) : Prop :=
  dateLe a.announced_date b.announced_date = true

instance : DecidableRel dateOrder := fun a b =>
  instDecidableEqBool (dateLe a.announced_date b.announced_date) true

/-- Embeds the `df.sort_values` call on the Announced Date column
(dashboard.py line 36): the rows reordered ascending by announced date,
NaT last.  pandas uses its default quicksort kind here, which fixes the
multiset of rows and the ascending key order but leaves the relative
order of equal-date rows to the numpy sorting routine; this embedding
uses an insertion sort, which agrees with pandas on the sorted keys. -/
def sortByDate (rows : List DatedRecord) : List DatedRecord :=
  rows.insertionSort dateOrder

/-- One fully loaded row, as produced by `load_data`: parsed (possibly
NaT) date, a present Funding Type (a NaN one would have raised in the
categorize step) and the derived Funding Category column, computed once
at load time (dashboard.py lines 39-42).  `FundingRound` is the data
model idealization of such a row with a present date. -/
structure LoadedRow where
  organization_name : Option String
  announced_date : Option ℕ
  funding_type : String
  equity_only_funding : Option String
  money_raised_usd : Option ℚ
  lead_investors : Option String
  funding_category : String
deriving DecidableEq

/-- Embeds one evaluation of the categorize lambda (dashboard.py lines
39-42) on a row: a NaN Funding Type cell reaches the substring test and
raises a TypeError; a NaN Equity Only Funding cell compares unequal to
"Yes" exactly like any other non-"Yes" value, embedded as the empty
string. -/
def categorizeRow (r : DatedRecord) : Except MalformedInputError LoadedRow :=
  match r.funding_type with
  | none => Except.error MalformedInputError.badTypeCell
  | some ft =>
    Except.ok
      { organization_name := r.organization_name
        announced_date := r.announced_date
        funding_type := ft
        equity_only_funding := r.equity_only_funding
        money_raised_usd := r.money_raised_usd
        lead_investors := r.lead_investors
        funding_category := categorize_funding ft (r.equity_only_funding.getD "") }

/-- Embeds the `df.apply` call row by row, propagating the first raise. -/
def categorizeRows : List DatedRecord → Except MalformedInputError (List LoadedRow)
  | [] => Except.ok []
  | r :: rest =>
    match categorizeRow r with
    | Except.error e => Except.error e
    | Except.ok row =>
      match categorizeRows rest with
      | Except.error e => Except.error e
      | Except.ok rows => Except.ok (row :: rows)

/-- Embeds `load_data` (dashboard.py lines 29-44) step by step: read the
Announced Date column (KeyError when that column is absent), parse it
with `pd.to_datetime`, sort by date, then derive the Funding Category
column with `df.apply`, whose lambda reads the Funding Type and then the
Equity Only Funding column of each row (KeyError on the first absent one,
raised only when there is at least one row, since `apply` never invokes
the lambda on an empty frame).  The Organization Name, Money Raised and
Lead Investors columns are never read here, so their absence does not
fail the load. -/
def load_data (t : RawTable) : Except MalformedInputError (List LoadedRow) :=
  if t.hasDateCol = false then Except.error (MalformedInputError.missingColumn "Announced Date")
  else
    match toDatetime t.rows with
    | Except.error e => Except.error e
    | Except.ok dated =>
      match sortByDate dated with
      | [] => Except.ok []
      | r :: rest =>
        if t.hasTypeCol = false then
          Except.error (MalformedInputError.missingColumn "Funding Type")
        else if t.hasEquityCol = false then
          Except.error (MalformedInputError.missingColumn "Equity Only Funding")
        else categorizeRows (r :: rest)

/-- Python `s.replace(a, b)` for a single-character pattern `a`, where
`b` is a single character (`some c`) or the empty string (`none`). -/
def replaceAllChar (a : Char) (b : Option Char) (l : List Char) : List Char :=
  l.filterMap (fun c => if c = a then b else some c)

/-- Embeds the filename normalization of `load_company_logo`
(dashboard.py line 49): lowercase, spaces to underscores, commas and
periods removed, then the fixed `.png` extension. -/
def logo_filename (company_name : String) : String :=
  String.mk
    (replaceAllChar '.' none
      (replaceAllChar ',' none
        (replaceAllChar ' ' (some '_') (company_name.data.map Char.toLower)))) ++ ".png"

/-- Embeds `os.path.join('logos', filename)` (dashboard.py line 50). -/
def logo_path (company_name : String) : String :=
  "logos/" ++ logo_filename company_name

/-- Embeds `load_company_logo` (dashboard.py lines 47-56), with the file
system abstracted as an existence predicate: returns the opened logo
(identified by its path) when the file exists, `none` otherwise. -/
def load_company_logo (file_exists : String → Bool) (company_name : String) : Option String :=
  if file_exists (logo_path company_name) then some (logo_path company_name) else none

/-- Written from the words of the spec (section 6): normalize the company
name by lowercasing, mapping spaces to underscores and stripping commas
and periods, then append the fixed image extension. -/
def specLogoName (company_name : String) : String :=
  String.mk
    ((company_name.data.map Char.toLower).filterMap
      (fun c => if c = ',' ∨ c = '.' then none else if c = ' ' then some '_' else some c))
    ++ ".png"

/-- Embeds the company filter of dashboard.py line 92: the rows whose
Organization Name equals the selected company. -/
def companyRows (df : List FundingRound) (company : String) : List FundingRound :=
  df.filter (fun r => r.organization_name == company)

/-- Embeds `pandas.Series.sum` over a float column: NaN entries are
skipped, the empty sum is 0. -/
def seriesSum (xs : List (Option ℚ)) : ℚ :=
  (xs.filterMap id).sum

/-- Sum of the money column over a list of rows, skipping missing cells. -/
def sumMoney (l : List FundingRound) : ℚ :=
  seriesSum (l.map FundingRound.money_raised_usd)

/-- Embeds `total_raised` (dashboard.py line 98). -/
def total_raised (df : List FundingRound) (company : String) : ℚ :=
  sumMoney (companyRows df company)

/-- Embeds `num_rounds` (dashboard.py line 99). -/
def num_rounds (df : List FundingRound) (company : String) : ℕ :=
  (companyRows df company).length

/-- Embeds `latest_round` (dashboard.py line 100): the funding type of the
last row of the company subset, or `none` for the "N/A" sentinel when the
subset is empty. -/
def latest_round (df : List FundingRound) (company : String) : Option String :=
  ((companyRows df company).getLast?).map FundingRound.funding_type

/-- Embeds `latest_date` (dashboard.py line 101): the announced date of
the last row, or `none` for the "N/A" sentinel when the subset is empty. -/
def latest_date (df : List FundingRound) (company : String) : Option ℕ :=
  ((companyRows df company).getLast?).map FundingRound.announced_date

/-- Embeds the groupby on Funding Category of the money column, summed,
read with the `.get` default of 0
(dashboard.py lines 104-109): the group sum for a category, which is the
NaN-skipping sum over the rows of that category; an absent category gives
the empty sum 0, matching the `.get` default. -/
def category_total (df : List FundingRound) (company cat : String) : ℚ :=
  sumMoney ((companyRows df company).filter (fun r => funding_category r == cat))

/-- Embeds `equity_funding` (dashboard.py line 107). -/
def equity_funding (df : List FundingRound) (company : String) : ℚ :=
  category_total df company "Equity"

/-- Embeds `debt_funding` (dashboard.py line 108). -/
def debt_funding (df : List FundingRound) (company : String) : ℚ :=
  category_total df company "Debt"

/-- Embeds `grant_funding` (dashboard.py line 109). -/
def grant_funding (df : List FundingRound) (company : String) : ℚ :=
  category_total df company "Grant"

/-- Embeds `debt_to_equity` (dashboard.py lines 112-114): the ratio when
equity funding is positive, `none` for the "N/A" sentinel otherwise. -/
def debt_to_equity (df : List FundingRound) (company : String) : Option ℚ :=
  if 0 < equity_funding df company then
    some (debt_funding df company / equity_funding df company)
  else none

/-- Rounding to `k` decimal digits, embedding the Python format specifiers
`:.2f` and `:.1f` (half-up; the claims involve no tie values). -/
def roundTo (k : ℕ) (q : ℚ) : ℚ :=
  ((⌊q * (10 : ℚ) ^ k + 1 / 2⌋ : ℤ) : ℚ) / (10 : ℚ) ^ k

/-- The displayed debt-to-equity value (dashboard.py line 114 formats it
with `:.2f`). -/
def debt_to_equity_display (df : List FundingRound) (company : String) : Option ℚ :=
  (debt_to_equity df company).map (roundTo 2)

/-- Embeds `debt_to_total` (dashboard.py lines 117-119): the percentage
(formatted `:.1f`) when total funding is positive, 0 otherwise. -/
def debt_to_total (df : List FundingRound) (company : String) : ℚ :=
  if 0 < total_raised df company then
    roundTo 1 (debt_funding df company / total_raised df company * 100)
  else 0

/-- Embeds the equity percentage metric (dashboard.py line 133): the
percentage (formatted `:.1f`) when total funding is positive, 0 (the
displayed "0%") otherwise. -/
def equity_pct (df : List FundingRound) (company : String) : ℚ :=
  if 0 < total_raised df company then
    roundTo 1 (equity_funding df company / total_raised df company * 100)
  else 0

/-- The index of the pivot table (dashboard.py lines 172-179): the
distinct announced dates occurring among the rows. -/
def pivotDates (rows : List FundingRound) : List ℕ :=
  (rows.map FundingRound.announced_date).dedup

/-- The columns of the pivot table: the distinct funding categories
occurring among the rows. -/
def pivotCats (rows : List FundingRound) : List String :=
  (rows.map funding_category).dedup

/-- One aggregated cell of the pivot table: the NaN-skipping sum of the
money column over the rows with the given date and category; an empty
group gives 0, matching `fill_value=0`. -/
def cellSum (rows : List FundingRound) (d : ℕ) (cat : String) : ℚ :=
  sumMoney (rows.filter (fun r => r.announced_date == d && funding_category r == cat))

/-- Embeds the `pd.pivot_table(...)` call (dashboard.py lines 172-179):
a table whose rows are the distinct dates, whose columns are the distinct
categories, and whose cells are the per-group sums with absent groups
filled with 0. -/
def pivot_table (rows : List FundingRound) : List (ℕ × List (String × ℚ)) :=
  (pivotDates rows).map (fun d => (d, (pivotCats rows).map (fun cat => (cat, cellSum rows d cat))))

/-- Reads one cell of the pivot table, with the `fill_value=0` default for
a date or category absent from the table. -/
def tableGet (t : List (ℕ × List (String × ℚ))) (d : ℕ) (cat : String) : ℚ :=
  ((t.find? (fun p => p.1 == d)).map
    (fun p => ((p.2.find? (fun q => q.1 == cat)).map Prod.snd).getD 0)).getD 0

/-- First row of the scenario dataset of spec section 8: CompanyX raises
a Series A of 1000000 on 2020-01-01. -/
def scenarioRow1 : FundingRound :=
  { organization_name := "CompanyX"
    announced_date := 20200101
    funding_type := "Series A"
    equity_only_funding := "No"
    money_raised_usd := some 1000000
    lead_investors := "" }

/-- Second row of the scenario dataset of spec section 8: CompanyX raises
Debt Financing of 500000 on 2021-01-01. -/
def scenarioRow2 : FundingRound :=
  { organization_name := "CompanyX"
    announced_date := 20210101
    funding_type := "Debt Financing"
    equity_only_funding := "No"
    money_raised_usd := some 500000
    lead_investors := "" }

/-- The two-row scenario dataset of spec section 8, already in ascending
date order. -/
def scenarioDf : List FundingRound :=
  [scenarioRow1, scenarioRow2]

/-! Theorems about the embedding. -/

/-- C1: `categorize_funding` evaluates its rules in the precedence order
Grant, Debt, Equity, Other with case-sensitive substring checks: it
returns "Grant" iff the funding type equals "Grant" exactly; otherwise
"Debt" iff the funding type equals "Debt Financing" or contains "Debt";
otherwise "Equity" iff the equity-only flag equals "Yes" or the funding
type contains "Series", "Venture" or "Equity"; otherwise "Other"; and the
six concrete evaluations of the claim hold. -/
theorem categorize_funding_spec (ft eo : String) :
    (categorize_funding ft eo = "Grant" ↔ ft = "Grant") ∧
    (categorize_funding ft eo = "Debt" ↔
      ft ≠ "Grant" ∧ (ft = "Debt Financing" ∨ strContains ft "Debt" = true)) ∧
    (categorize_funding ft eo = "Equity" ↔
      ft ≠ "Grant" ∧ ¬(ft = "Debt Financing" ∨ strContains ft "Debt" = true) ∧
      (eo = "Yes" ∨ strContains ft "Series" = true ∨ strContains ft "Venture" = true ∨
        strContains ft "Equity" = true)) ∧
    (categorize_funding ft eo = "Other" ↔
      ft ≠ "Grant" ∧ ¬(ft = "Debt Financing" ∨ strContains ft "Debt" = true) ∧
      ¬(eo = "Yes" ∨ strContains ft "Series" = true ∨ strContains ft "Venture" = true ∨
        strContains ft "Equity" = true)) ∧
    categorize_funding "Debt Grant" "No" = "Debt" ∧
    categorize_funding "Series A" "No" = "Equity" ∧
    categorize_funding "Grant" "No" = "Grant" ∧
    categorize_funding "Post-IPO Debt" "No" = "Debt" ∧
    categorize_funding "Angel" "Yes" = "Equity" ∧
    categorize_funding "Angel" "No" = "Other" := by
  refine ⟨?_, ?_, ?_, ?_, by decide, by decide, by decide, by decide, by decide, by decide⟩ <;>
    · by_cases h1 : ft = "Grant"
      · simp [categorize_funding, h1]
      · by_cases h2 : ft = "Debt Financing" ∨ strContains ft "Debt" = true
        · simp [categorize_funding, h1, h2]
        · by_cases h3 : eo = "Yes" ∨ strContains ft "Series" = true ∨
              strContains ft "Venture" = true ∨ strContains ft "Equity" = true
          · simp [categorize_funding, h1, h2, h3]
          · simp [categorize_funding, h1, h2, h3]

/-- Unfolding lemma: a NaN-skipping sum over a cons. -/
theorem seriesSum_cons (x : Option ℚ) (xs : List (Option ℚ)) :
    seriesSum (x :: xs) = x.getD 0 + seriesSum xs := by
  cases x <;> simp [seriesSum]

/-- Unfolding lemma: the money sum over a cons of rows. -/
theorem sumMoney_cons (r : FundingRound) (l : List FundingRound) :
    sumMoney (r :: l) = r.money_raised_usd.getD 0 + sumMoney l := by
  simp [sumMoney, seriesSum_cons]

/-- The categorization rule is total: every row lands in one of the four
categories. -/
theorem funding_category_mem (r : FundingRound) :
    funding_category r = "Grant" ∨ funding_category r = "Debt" ∨
    funding_category r = "Equity" ∨ funding_category r = "Other" := by
  unfold funding_category categorize_funding
  split_ifs <;> simp

/-- Partition lemma: the four per-category money sums of a row list add
up to its total money sum. -/
theorem catPartition (l : List FundingRound) :
    sumMoney (l.filter (fun r => funding_category r == "Equity")) +
    sumMoney (l.filter (fun r => funding_category r == "Debt")) +
    sumMoney (l.filter (fun r => funding_category r == "Grant")) +
    sumMoney (l.filter (fun r => funding_category r == "Other")) = sumMoney l := by
  induction l with
  | nil => simp [sumMoney, seriesSum]
  | cons r l ih =>
    rcases funding_category_mem r with h | h | h | h <;>
      simp [List.filter_cons, h, sumMoney_cons] <;> linarith

/-- C2: for every dataset and selected company, the three category totals
(Equity, Debt, Grant) plus the money sum over the rows categorized Other
equal the total raised exactly: every row is counted in exactly one
category, none lost or double-counted. -/
theorem category_totals_partition (df : List FundingRound) (c : String) :
    equity_funding df c + debt_funding df c + grant_funding df c +
      category_total df c "Other" = total_raised df c := by
  unfold equity_funding debt_funding grant_funding category_total total_raised
  exact catPartition (companyRows df c)

/-- Sums of non-negative money cells are non-negative. -/
theorem sumMoney_nonneg (l : List FundingRound)
    (h : ∀ r ∈ l, 0 ≤ r.money_raised_usd.getD 0) : 0 ≤ sumMoney l := by
  induction l with
  | nil => simp [sumMoney, seriesSum]
  | cons r l ih =>
    rw [sumMoney_cons]
    have hr := h r (by simp)
    have hl := ih (fun r hr => h r (by simp [hr]))
    linarith

/-- Rows of the company subset are rows of the dataset. -/
theorem mem_of_mem_companyRows {df : List FundingRound} {c : String} {r : FundingRound}
    (h : r ∈ companyRows df c) : r ∈ df :=
  (List.mem_filter.mp h).1

/-- C3: on any dataset whose money amounts respect the data model (all
non-negative), the debt-to-equity metric is the "N/A" sentinel exactly
when the equity total is 0, regardless of the debt total, and when the
equity total is positive it is the quotient of the debt total by the
equity total.  The embedded computation is a total function: it never
raises. -/
theorem debt_to_equity_spec (df : List FundingRound) (c : String)
    (h : ∀ r ∈ df, 0 ≤ r.money_raised_usd.getD 0) :
    (debt_to_equity df c = none ↔ equity_funding df c = 0) ∧
    (0 < equity_funding df c →
      debt_to_equity df c = some (debt_funding df c / equity_funding df c)) := by
  have hnn : 0 ≤ equity_funding df c := by
    apply sumMoney_nonneg
    intro r hr
    exact h r (mem_of_mem_companyRows (List.mem_filter.mp hr).1)
  constructor
  · unfold debt_to_equity
    split_ifs with hpos
    · simp only [reduceCtorEq, false_iff]
      exact fun h0 => absurd h0 (ne_of_gt hpos)
    · simp only [true_iff]
      exact le_antisymm (not_lt.mp hpos) hnn
  · intro hpos
    unfold debt_to_equity
    rw [if_pos hpos]

/-- Witness for C3 at the concrete scenario dataset. -/
theorem debt_to_equity_spec_witness :
    (∀ r ∈ scenarioDf, 0 ≤ r.money_raised_usd.getD 0) ∧
    ((debt_to_equity scenarioDf "CompanyX" = none ↔
        equity_funding scenarioDf "CompanyX" = 0) ∧
      (0 < equity_funding scenarioDf "CompanyX" →
        debt_to_equity scenarioDf "CompanyX" =
          some (debt_funding scenarioDf "CompanyX" / equity_funding scenarioDf "CompanyX"))) := by
  have h : ∀ r ∈ scenarioDf, 0 ≤ r.money_raised_usd.getD 0 := by
    intro r hr
    fin_cases hr <;> norm_num [scenarioRow1, scenarioRow2]
  exact ⟨h, debt_to_equity_spec scenarioDf "CompanyX" h⟩

/-- C4: on the two-row scenario dataset, the aggregator for CompanyX
produces a total of 1500000 over 2 rounds, category totals Equity
1000000, Debt 500000, Grant 0, a displayed debt-to-equity value of 0.50,
a debt-to-total percentage of 33.3, an equity percentage of 66.7, and
latest round type "Debt Financing". -/
theorem scenario_companyX_summary :
    total_raised scenarioDf "CompanyX" = 1500000 ∧
    num_rounds scenarioDf "CompanyX" = 2 ∧
    equity_funding scenarioDf "CompanyX" = 1000000 ∧
    debt_funding scenarioDf "CompanyX" = 500000 ∧
    grant_funding scenarioDf "CompanyX" = 0 ∧
    debt_to_equity_display scenarioDf "CompanyX" = some (1 / 2) ∧
    debt_to_total scenarioDf "CompanyX" = 333 / 10 ∧
    equity_pct scenarioDf "CompanyX" = 667 / 10 ∧
    latest_round scenarioDf "CompanyX" = some "Debt Financing" := by
  have hrows : companyRows scenarioDf "CompanyX" = [scenarioRow1, scenarioRow2] := by
    simp [companyRows, scenarioDf, scenarioRow1, scenarioRow2]
  have hc1 : funding_category scenarioRow1 = "Equity" := by decide
  have hc2 : funding_category scenarioRow2 = "Debt" := by decide
  have hm1 : scenarioRow1.money_raised_usd = some 1000000 := rfl
  have hm2 : scenarioRow2.money_raised_usd = some 500000 := rfl
  have htot : total_raised scenarioDf "CompanyX" = 1500000 := by
    rw [total_raised, hrows, sumMoney_cons, sumMoney_cons, hm1, hm2]
    norm_num [sumMoney, seriesSum]
  have heq : equity_funding scenarioDf "CompanyX" = 1000000 := by
    rw [equity_funding, category_total, hrows]
    simp [List.filter_cons, hc1, hc2, sumMoney_cons, hm1, sumMoney, seriesSum]
  have hdebt : debt_funding scenarioDf "CompanyX" = 500000 := by
    rw [debt_funding, category_total, hrows]
    simp [List.filter_cons, hc1, hc2, sumMoney_cons, hm2, sumMoney, seriesSum]
  have hgrant : grant_funding scenarioDf "CompanyX" = 0 := by
    rw [grant_funding, category_total, hrows]
    simp [List.filter_cons, hc1, hc2, sumMoney, seriesSum]
  refine ⟨htot, ?_, heq, hdebt, hgrant, ?_, ?_, ?_, ?_⟩
  · rw [num_rounds, hrows]
    rfl
  · rw [debt_to_equity_display, debt_to_equity, heq, hdebt,
      if_pos (by norm_num : (0 : ℚ) < 1000000)]
    have hq : (500000 : ℚ) / 1000000 = 1 / 2 := by norm_num
    rw [hq, Option.map_some']
    have ha : (1 : ℚ) / 2 * (10 : ℚ) ^ (2 : ℕ) + 1 / 2 = 101 / 2 := by norm_num
    have hf : ⌊(101 : ℚ) / 2⌋ = 50 := Int.floor_eq_iff.mpr (by norm_num)
    rw [roundTo, ha, hf]
    norm_num
  · rw [debt_to_total, htot, hdebt, if_pos (by norm_num : (0 : ℚ) < 1500000)]
    have hq : (500000 : ℚ) / 1500000 * 100 = 100 / 3 := by norm_num
    have ha : (100 : ℚ) / 3 * (10 : ℚ) ^ (1 : ℕ) + 1 / 2 = 2003 / 6 := by norm_num
    have hf : ⌊(2003 : ℚ) / 6⌋ = 333 := Int.floor_eq_iff.mpr (by norm_num)
    rw [hq, roundTo, ha, hf]
    norm_num
  · rw [equity_pct, htot, heq, if_pos (by norm_num : (0 : ℚ) < 1500000)]
    have hq : (1000000 : ℚ) / 1500000 * 100 = 200 / 3 := by norm_num
    have ha : (200 : ℚ) / 3 * (10 : ℚ) ^ (1 : ℕ) + 1 / 2 = 4003 / 6 := by norm_num
    have hf : ⌊(4003 : ℚ) / 6⌋ = 667 := Int.floor_eq_iff.mpr (by norm_num)
    rw [hq, roundTo, ha, hf]
    norm_num
  · rw [latest_round, hrows]
    rfl

/-- C5: selecting a company with zero matching rows yields a summary,
never an error: total 0, zero rounds, "N/A" sentinels for the latest
round type, latest round date and debt-to-equity, and 0 for both
percentage metrics. -/
theorem empty_selection_summary (df : List FundingRound) (c : String)
    (h : companyRows df c = []) :
    total_raised df c = 0 ∧ num_rounds df c = 0 ∧ latest_round df c = none ∧
    latest_date df c = none ∧ debt_to_equity df c = none ∧
    debt_to_total df c = 0 ∧ equity_pct df c = 0 := by
  have htot : total_raised df c = 0 := by
    rw [total_raised, h]
    rfl
  have heq : equity_funding df c = 0 := by
    rw [equity_funding, category_total, h]
    rfl
  refine ⟨htot, ?_, ?_, ?_, ?_, ?_, ?_⟩
  · rw [num_rounds, h]
    rfl
  · rw [latest_round, h]
    rfl
  · rw [latest_date, h]
    rfl
  · rw [debt_to_equity, heq, if_neg (lt_irrefl (0 : ℚ))]
  · rw [debt_to_total, htot, if_neg (lt_irrefl (0 : ℚ))]
  · rw [equity_pct, htot, if_neg (lt_irrefl (0 : ℚ))]

/-- Witness for C5: the empty dataset with a stale company selection. -/
theorem empty_selection_summary_witness :
    total_raised [] "Nobody" = 0 ∧ num_rounds [] "Nobody" = 0 ∧
    latest_round [] "Nobody" = none ∧ latest_date [] "Nobody" = none ∧
    debt_to_equity [] "Nobody" = none ∧ debt_to_total [] "Nobody" = 0 ∧
    equity_pct [] "Nobody" = 0 :=
  empty_selection_summary [] "Nobody" rfl

/-- The money sum distributes over list append. -/
theorem sumMoney_append (a b : List FundingRound) :
    sumMoney (a ++ b) = sumMoney a + sumMoney b := by
  simp [sumMoney, seriesSum, List.filterMap_append, List.sum_append]

/-- C10: a row whose money amount is missing still counts as one round in
the round count and appears in the rounds listing of its company, but
contributes 0 to the total raised and to every category total: missing
amounts are skipped by the sums, never propagated. -/
theorem missing_amount_row (pre post : List FundingRound) (r : FundingRound) (c : String)
    (hc : r.organization_name = c) (hm : r.money_raised_usd = none) :
    num_rounds (pre ++ r :: post) c = num_rounds (pre ++ post) c + 1 ∧
    r ∈ companyRows (pre ++ r :: post) c ∧
    total_raised (pre ++ r :: post) c = total_raised (pre ++ post) c ∧
    (∀ cat, category_total (pre ++ r :: post) c cat = category_total (pre ++ post) c cat) := by
  have hfilter : companyRows (pre ++ r :: post) c = companyRows pre c ++ r :: companyRows post c := by
    simp [companyRows, List.filter_append, List.filter_cons, hc]
  have hfilter2 : companyRows (pre ++ post) c = companyRows pre c ++ companyRows post c := by
    simp [companyRows, List.filter_append]
  refine ⟨?_, ?_, ?_, ?_⟩
  · rw [num_rounds, num_rounds, hfilter, hfilter2]
    simp only [List.length_append, List.length_cons]
    omega
  · rw [hfilter]
    simp
  · rw [total_raised, total_raised, hfilter, hfilter2, sumMoney_append, sumMoney_append,
      sumMoney_cons, hm]
    simp
  · intro cat
    rw [category_total, category_total, hfilter, hfilter2, List.filter_append,
      List.filter_append, List.filter_cons]
    by_cases hcat : (funding_category r == cat) = true
    · simp [hcat, sumMoney_append, sumMoney_cons, hm]
    · simp [hcat, sumMoney_append]

/-- A concrete round with a missing money amount. -/
def missingAmountRow : FundingRound :=
  { organization_name := "Solo"
    announced_date := 20220101
    funding_type := "Angel"
    equity_only_funding := "No"
    money_raised_usd := none
    lead_investors := "" }

/-- Witness for C10: a one-row dataset whose single row has a missing
money amount. -/
theorem missing_amount_row_witness :
    num_rounds ([] ++ missingAmountRow :: []) "Solo" = num_rounds ([] ++ []) "Solo" + 1 ∧
    missingAmountRow ∈ companyRows ([] ++ missingAmountRow :: []) "Solo" ∧
    total_raised ([] ++ missingAmountRow :: []) "Solo" = total_raised ([] ++ []) "Solo" ∧
    (∀ cat, category_total ([] ++ missingAmountRow :: []) "Solo" cat =
      category_total ([] ++ []) "Solo" cat) :=
  missing_amount_row [] [] missingAmountRow "Solo" rfl rfl

/-- Searching a list for the key itself finds the key exactly when it is
a member. -/
theorem find_key {α : Type*} [DecidableEq α] [BEq α] [LawfulBEq α] (l : List α) (a : α) :
    l.find? (fun x => x == a) = if a ∈ l then some a else none := by
  induction l with
  | nil => simp
  | cons x l ih =>
    by_cases hx : x = a
    · simp [List.find?_cons, hx]
    · rw [List.find?_cons]
      have hbeq : (x == a) = false := by
        simp [hx]
      rw [hbeq, ih]
      by_cases ha : a ∈ l <;> simp [ha, hx, Ne.symm hx]

/-- A date with no row gives an all-zero sum. -/
theorem cellSum_zero_of_date {rows : List FundingRound} {d : ℕ} (cat : String)
    (hd : d ∉ rows.map FundingRound.announced_date) : cellSum rows d cat = 0 := by
  have hnil : rows.filter (fun r => r.announced_date == d && funding_category r == cat) = [] := by
    rw [List.filter_eq_nil_iff]
    intro r hr hcond
    have h1 : r.announced_date = d := by
      have := (Bool.and_eq_true _ _).mp hcond
      exact beq_iff_eq.mp this.1
    exact hd (List.mem_map.mpr ⟨r, hr, h1⟩)
  rw [cellSum, hnil]
  rfl

/-- A category with no row gives an all-zero sum. -/
theorem cellSum_zero_of_cat {rows : List FundingRound} (d : ℕ) {cat : String}
    (hcat : cat ∉ rows.map funding_category) : cellSum rows d cat = 0 := by
  have hnil : rows.filter (fun r => r.announced_date == d && funding_category r == cat) = [] := by
    rw [List.filter_eq_nil_iff]
    intro r hr hcond
    have h1 : funding_category r = cat := by
      have := (Bool.and_eq_true _ _).mp hcond
      exact beq_iff_eq.mp this.2
    exact hcat (List.mem_map.mpr ⟨r, hr, h1⟩)
  rw [cellSum, hnil]
  rfl

/-- Reading any cell of the pivot table gives the per-group sum: the
stored cell when the date and category occur, and the 0 fill otherwise,
which agrees with the (empty) group sum. -/
theorem tableGet_pivot_table (rows : List FundingRound) (d : ℕ) (cat : String) :
    tableGet (pivot_table rows) d cat = cellSum rows d cat := by
  unfold tableGet pivot_table
  rw [List.find?_map]
  have hcomp : ((fun p : ℕ × List (String × ℚ) => p.1 == d) ∘
      (fun d' => (d', (pivotCats rows).map (fun cat' => (cat', cellSum rows d' cat'))))) =
      fun d' => d' == d := rfl
  rw [hcomp, find_key]
  by_cases hd : d ∈ pivotDates rows
  · rw [if_pos hd]
    simp only [Option.map_some', Option.getD_some]
    rw [List.find?_map]
    have hcomp2 : ((fun q : String × ℚ => q.1 == cat) ∘
        (fun cat' => (cat', cellSum rows d cat'))) = fun cat' => cat' == cat := rfl
    rw [hcomp2, find_key]
    by_cases hcat : cat ∈ pivotCats rows
    · rw [if_pos hcat]
      simp only [Option.map_some', Option.getD_some]
    · rw [if_neg hcat]
      simp only [Option.map_none', Option.getD_none]
      exact (cellSum_zero_of_cat d (fun h => hcat (List.mem_dedup.mpr h))).symm
  · rw [if_neg hd]
    simp only [Option.map_none', Option.getD_none]
    exact (cellSum_zero_of_date cat (fun h => hd (List.mem_dedup.mpr h))).symm

/-- C7: for every selected company, the pivot table behind the stacked
time-series chart has one entry per distinct announced date of the
company subset (no zero-filled gap dates, no duplicates), and reading any
date and category gives the sum of the money amounts of the rows with
that date and category, 0 when there are none. -/
theorem time_series_spec (df : List FundingRound) (c : String) :
    ((pivot_table (companyRows df c)).map Prod.fst).Nodup ∧
    (∀ d, d ∈ (pivot_table (companyRows df c)).map Prod.fst ↔
      d ∈ (companyRows df c).map FundingRound.announced_date) ∧
    (∀ d cat, tableGet (pivot_table (companyRows df c)) d cat =
      cellSum (companyRows df c) d cat) := by
  have hfst : (pivot_table (companyRows df c)).map Prod.fst = pivotDates (companyRows df c) := by
    unfold pivot_table
    rw [List.map_map]
    have hid : (Prod.fst ∘ fun d : ℕ =>
        (d, (pivotCats (companyRows df c)).map
          (fun cat' => (cat', cellSum (companyRows df c) d cat')))) = id := rfl
    rw [hid, List.map_id]
  refine ⟨?_, ?_, ?_⟩
  · rw [hfst]
    exact List.nodup_dedup _
  · intro d
    rw [hfst]
    exact List.mem_dedup
  · intro d cat
    exact tableGet_pivot_table (companyRows df c) d cat

/-- A present but unparseable date cell anywhere in the column makes the
`pd.to_datetime` step raise. -/
theorem toDatetime_error_of_mem {rows : List RawRecord} {r : RawRecord} (hr : r ∈ rows)
    {s : String} (hs : r.announced_date = some s) (hp : parseDate s = none) :
    ∃ e, toDatetime rows = Except.error e := by
  induction rows with
  | nil => cases hr
  | cons a rest ih =>
    cases hpc : parseDateCell a.announced_date with
    | error e => exact ⟨e, by simp [toDatetime, hpc]⟩
    | ok d =>
      have hrl : r ∈ rest := by
        rcases List.mem_cons.mp hr with rfl | hmem
        · rw [hs] at hpc
          simp [parseDateCell, hp] at hpc
        · exact hmem
      rcases ih hrl with ⟨e, he⟩
      cases htd : toDatetime rest with
      | error e2 => exact ⟨e2, by simp [toDatetime, hpc, htd]⟩
      | ok ds =>
        rw [htd] at he
        cases he

/-- The `pd.to_datetime` step keeps exactly one output row per input
row. -/
theorem toDatetime_ok_length : ∀ {rows : List RawRecord} {ds : List DatedRecord},
    toDatetime rows = Except.ok ds → ds.length = rows.length := by
  intro rows
  induction rows with
  | nil =>
    intro ds h
    simp only [toDatetime, Except.ok.injEq] at h
    rw [← h]
    rfl
  | cons a rest ih =>
    intro ds h
    cases hpc : parseDateCell a.announced_date with
    | error e =>
      simp [toDatetime, hpc] at h
    | ok d =>
      cases htd : toDatetime rest with
      | error e =>
        simp [toDatetime, hpc, htd] at h
      | ok ds' =>
        simp only [toDatetime, hpc, htd, Except.ok.injEq] at h
        rw [← h, List.length_cons, List.length_cons, ih htd]

/-- C8 (amended): the load fails with a `MalformedInputError` and returns
no dataset, partial or otherwise, exactly in the failure modes the
program has: the Announced Date column is missing, or some present date
cell is unparseable, or the table has at least one data row and the
Funding Type or Equity Only Funding column is missing (the required
columns `load_data` actually reads).  A missing Organization Name (or
Money Raised, or Lead Investors) column does not fail the load, and a
missing date cell becomes NaT without raising: see the counterexample
theorem for both. -/
theorem load_data_malformed (t : RawTable)
    (h : t.hasDateCol = false ∨
      (∃ r ∈ t.rows, ∃ s, r.announced_date = some s ∧ parseDate s = none) ∨
      (t.rows ≠ [] ∧ (t.hasTypeCol = false ∨ t.hasEquityCol = false))) :
    (∃ e : MalformedInputError, load_data t = Except.error e) ∧
    ∀ rows, load_data t ≠ Except.ok rows := by
  have herr : ∃ e, load_data t = Except.error e := by
    by_cases hd : t.hasDateCol = false
    · exact ⟨MalformedInputError.missingColumn "Announced Date", by simp [load_data, hd]⟩
    · have hd' : t.hasDateCol = true := by
        simpa using hd
      rcases h with h | h | h
      · exact absurd h hd
      · rcases h with ⟨r, hr, s, hs, hp⟩
        rcases toDatetime_error_of_mem hr hs hp with ⟨e, he⟩
        exact ⟨e, by simp [load_data, hd', he]⟩
      · rcases h with ⟨hne, hcol⟩
        cases htd : toDatetime t.rows with
        | error e => exact ⟨e, by simp [load_data, hd', htd]⟩
        | ok dated =>
          have hlen : dated.length = t.rows.length := toDatetime_ok_length htd
          have hslen : (sortByDate dated).length = t.rows.length := by
            rw [← hlen]
            exact (List.perm_insertionSort _ _).length_eq
          have hsne : sortByDate dated ≠ [] := by
            intro hnil
            rw [hnil] at hslen
            exact hne (List.eq_nil_of_length_eq_zero hslen.symm)
          rcases List.exists_cons_of_ne_nil hsne with ⟨b, L, hbl⟩
          by_cases ht : t.hasTypeCol = false
          · exact ⟨MalformedInputError.missingColumn "Funding Type",
              by simp [load_data, hd', htd, sortByDate] at hbl ⊢; simp [hbl, ht]⟩
          · have ht' : t.hasTypeCol = true := by
              simpa using ht
            have heq : t.hasEquityCol = false := by
              rcases hcol with hcol | hcol
              · exact absurd hcol ht
              · exact hcol
            exact ⟨MalformedInputError.missingColumn "Equity Only Funding",
              by simp [load_data, hd', htd, sortByDate] at hbl ⊢; simp [hbl, ht', heq]⟩
  rcases herr with ⟨e, he⟩
  refine ⟨⟨e, he⟩, ?_⟩
  intro rows hok
  rw [he] at hok
  cases hok

/-- A concrete raw table whose Announced Date column is missing. -/
def noDateColTable : RawTable :=
  { hasOrgCol := true
    hasDateCol := false
    hasTypeCol := true
    hasEquityCol := true
    hasMoneyCol := true
    hasLeadCol := true
    rows := [ { organization_name := some "Acme"
                announced_date := none
                funding_type := some "Grant"
                equity_only_funding := some "No"
                money_raised_usd := none
                lead_investors := none } ] }

/-- Witness for C8: loading a table without the Announced Date column. -/
theorem load_data_malformed_witness :
    (noDateColTable.hasDateCol = false ∨
      (∃ r ∈ noDateColTable.rows, ∃ s, r.announced_date = some s ∧ parseDate s = none) ∨
      (noDateColTable.rows ≠ [] ∧
        (noDateColTable.hasTypeCol = false ∨ noDateColTable.hasEquityCol = false))) ∧
    (∃ e : MalformedInputError, load_data noDateColTable = Except.error e) ∧
    ∀ rows, load_data noDateColTable ≠ Except.ok rows :=
  ⟨Or.inl rfl, load_data_malformed noDateColTable (Or.inl rfl)⟩

/-- A concrete raw table whose Organization Name column is absent and
whose single data row has a missing Announced Date cell. -/
def noOrgColTable : RawTable :=
  { hasOrgCol := false
    hasDateCol := true
    hasTypeCol := true
    hasEquityCol := true
    hasMoneyCol := true
    hasLeadCol := true
    rows := [ { organization_name := none
                announced_date := none
                funding_type := some "Grant"
                equity_only_funding := some "No"
                money_raised_usd := some 1000
                lead_investors := none } ] }

/-- Counterexample to C8 as stated: a table missing the required
Organization Name column, whose one row also has a missing date cell,
loads successfully — `load_data` never reads Organization Name (the
program fails only later, outside load), and `pd.to_datetime` turns the
missing cell into NaT without raising. -/
theorem load_data_missing_column_loads :
    noOrgColTable.hasOrgCol = false ∧
    noOrgColTable.rows.map RawRecord.announced_date = [none] ∧
    load_data noOrgColTable =
      Except.ok
        [ { organization_name := none
            announced_date := none
            funding_type := "Grant"
            equity_only_funding := some "No"
            money_raised_usd := some 1000
            lead_investors := none
            funding_category := "Grant" } ] :=
  ⟨rfl, rfl, rfl⟩

/-- The three chained single-character replacements of the source equal
the one-pass normalization written from the words of the spec. -/
theorem logo_norm_chars (l : List Char) :
    replaceAllChar '.' none (replaceAllChar ',' none (replaceAllChar ' ' (some '_') l)) =
    l.filterMap
      (fun c => if c = ',' ∨ c = '.' then none else if c = ' ' then some '_' else some c) := by
  induction l with
  | nil => rfl
  | cons c l ih =>
    by_cases h1 : c = ' '
    · subst h1
      simpa [replaceAllChar, List.filterMap_cons] using ih
    · by_cases h2 : c = ','
      · subst h2
        simpa [replaceAllChar, List.filterMap_cons] using ih
      · by_cases h3 : c = '.'
        · subst h3
          simpa [replaceAllChar, List.filterMap_cons] using ih
        · simpa [replaceAllChar, List.filterMap_cons, h1, h2, h3] using ih

/-- C9: the logo lookup resolves the file name by lowercasing the
company name, mapping spaces to underscores, stripping commas and
periods and appending the fixed ".png" extension (equal to the
normalization written from the spec), looks it up under the "logos"
directory, and when the file is absent returns the distinct `none`
result; the embedded lookup is a total function and never raises. -/
theorem load_company_logo_spec (name : String) (file_exists : String → Bool)
    (h : file_exists (logo_path name) = false) :
    logo_filename name = specLogoName name ∧ load_company_logo file_exists name = none := by
  constructor
  · unfold logo_filename specLogoName
    rw [logo_norm_chars]
  · unfold load_company_logo
    simp [h]

/-- Witness for C9 at a concrete company name and an empty logo
directory. -/
theorem load_company_logo_spec_witness :
    logo_filename "Acme, Inc." = specLogoName "Acme, Inc." ∧
    load_company_logo (fun _ => false) "Acme, Inc." = none :=
  load_company_logo_spec "Acme, Inc." (fun _ => false) rfl

/-- What the load-time sort guarantees: a successful load returns rows
pairwise ascending in announced date, and a permutation of the validated
input rows.  (Which of the orders of equal-date rows is returned is a
numpy implementation detail of the default quicksort kind; the embedding
does not fix it and no theorem here asserts stability.) -/
instance : IsTrans DatedRecord dateOrder :=
  ⟨fun a b c hab hbc => by
    obtain ⟨_, da, _, _, _, _⟩ := a
    obtain ⟨_, db, _, _, _, _⟩ := b
    obtain ⟨_, dc, _, _, _, _⟩ := c
    unfold dateOrder at *
    dsimp only at *
    cases da <;> cases db <;> cases dc <;> simp_all [dateLe]
    omega⟩

instance : IsTotal DatedRecord dateOrder :=
  ⟨fun a b => by
    obtain ⟨_, da, _, _, _, _⟩ := a
    obtain ⟨_, db, _, _, _, _⟩ := b
    unfold dateOrder
    dsimp only
    cases da <;> cases db <;> simp [dateLe]
    omega⟩

/-- What the load-time sort guarantees: rows pairwise ascending in
announced date with NaT last, and a permutation of its input.  (Which of
the orders of equal-date rows is returned is a numpy implementation
detail of the default quicksort kind; the embedding does not fix it and
no theorem here asserts stability.) -/
theorem sortByDate_sorted (rows : List DatedRecord) :
    (sortByDate rows).Pairwise dateOrder ∧ (sortByDate rows).Perm rows :=
  ⟨List.sorted_insertionSort dateOrder rows, List.perm_insertionSort dateOrder rows⟩

end Dashboard
